import Mathlib

/-!
Verification of the MonkeyMask provider bridge (`src/providers/MonkeyMaskProvider.tsx`)
and the signature-verification route (`src/app/api/verify-signature/route.ts`).

The bridge is a single-threaded, event-driven React component.  We embed it
shallowly: its state becomes an explicit record (`BridgeState`), its event
handlers and action wrappers become state-passing functions, and the one
genuinely asynchronous operation (`getAccountInfo`, which suspends at `await`)
is split at its suspension points into a synchronous prefix
(`getAccountInfoSync`), a promise-settlement continuation (`settleFetch`) and a
caller resumption (`getAccountInfoResume`).  The surrounding JavaScript
semantics relevant to the source (string falsiness, `a || b`, substring
matching, `Map` get/set/delete/clear) is modelled explicitly.
-/

namespace MonkeyMask

/-- JavaScript `a || b` on strings: the empty string is the only falsy string. -/
def jsOr (a b : String) : String := if a = "" then b else a

/-- JavaScript falsiness of a nullable string: `null`/`undefined` or `""`. -/
def optFalsy : Option String → Bool
  | none => true
  | some s => if s = "" then true else false

/-- Whether `pat` is a prefix of `l` (character lists). -/
def isPrefixList : List Char → List Char → Bool
  | [], _ => true
  | _ :: _, [] => false
  | a :: as, b :: bs => if a = b then isPrefixList as bs else false

/-- Whether `pat` occurs as a contiguous run inside `l` (character lists). -/
def containsSub (pat : List Char) : List Char → Bool
  | [] => isPrefixList pat []
  | b :: bs => if isPrefixList pat (b :: bs) then true else containsSub pat bs

/-- JavaScript `s.includes(pat)`. -/
def strContains (s pat : String) : Bool := containsSub pat.toList s.toList

/-- JavaScript `s.startsWith(pre)`. -/
def strStartsWith (s pre : String) : Bool := isPrefixList pre.toList s.toList

/-- Association-list lookup, modelling `Map.prototype.get`. -/
def mapFind {α : Type} : List (String × α) → String → Option α
  | [], _ => none
  | (k1, v) :: rest, k => if k1 = k then some v else mapFind rest k

/-- Association-list update, modelling `Map.prototype.set` (at most one entry
    per key: an existing entry for the key is replaced in place). -/
def mapSet {α : Type} : List (String × α) → String → α → List (String × α)
  | [], k, v => [(k, v)]
  | (k1, v1) :: rest, k, v =>
    if k1 = k then (k, v) :: rest else (k1, v1) :: mapSet rest k v

/-- `AccountInfo` from `src/types/monkeymask.ts`. -/
structure AccountInfo where
  address : String
  balance : String
  pending : String
  rawBalance : String
  rawPending : String
deriving DecidableEq, Repr

/-- `Block` from `src/types/monkeymask.ts` (optional fields as `Option`). -/
structure Block where
  type : String
  account : String
  previous : String
  representative : String
  balance : String
  link : String
  signature : Option String
  work : Option String
  amount : Option String
deriving DecidableEq, Repr

/-- `SignBlockResult` from `src/types/monkeymask.ts`. -/
structure SignBlockResult where
  signature : String
  work : Option String
deriving DecidableEq, Repr

/-- An entry of `accountInfoCacheRef` (line 65): capture timestamp plus data. -/
structure CacheEntry where
  ts : Nat
  data : AccountInfo
deriving DecidableEq, Repr

/-- The bridge's state: the React `useState` fields, the two `useRef` maps
    (`accountInfoCacheRef` as an association list, `accountInfoInFlightRef` as
    the list of addresses having a pending shared promise), a counter of
    `provider.getAccountInfo` invocations issued so far, and the observable
    history of calls to the external `onConnect`/`onDisconnect`/`onError`
    config callbacks. -/
structure BridgeState where
  isInstalled : Bool
  isConnected : Bool
  isConnecting : Bool
  publicKey : Option String
  accounts : List String
  error : Option String
  userDisconnected : Bool
  cache : List (String × CacheEntry)
  inFlight : List String
  providerCalls : Nat
  onConnectCalls : List String
  onDisconnectCalls : Nat
  onErrorCalls : List String
deriving DecidableEq, Repr

/-- The "capability lost" test of lines 74–76. -/
def contextLostMsg (m : String) : Bool :=
  strContains m "Extension context invalidated"
    || strContains m "context invalidated"
    || strContains m "message port closed"

/-- The error-message classification of lines 74–90: substring matching against
    the external error text, falling through to the verbatim message. -/
def classifyMessage (m : String) : String :=
  if contextLostMsg m then
    "Extension connection lost. Please refresh the page."
  else if strContains m "Wallet is locked" || strContains m "locked"
      || strContains m "unlock" then
    "Wallet is locked. The extension will prompt you to unlock for this transaction."
  else if strContains m "User rejected" || strContains m "rejected" then
    "Transaction was rejected by user."
  else m

/-- `handleError` (lines 70–93): take the thrown error's message (falling back
    to the default when absent or empty), classify it by substring matching,
    store the classified message in the error state — the "capability lost"
    class additionally forces disconnected state — and notify the external
    `onError` callback with the raw message. -/
def handleError (s : BridgeState) (errMsg : Option String) (defaultMessage : String) :
    BridgeState :=
  let errorMessage := jsOr (errMsg.getD "") defaultMessage
  let s1 :=
    if contextLostMsg errorMessage then
      { s with error := some (classifyMessage errorMessage), isConnected := false,
               publicKey := none, accounts := [] }
    else
      { s with error := some (classifyMessage errorMessage) }
  { s1 with onErrorCalls := s1.onErrorCalls ++ [errorMessage] }

/-- The `connect` event handler (lines 111–123): set connected state, the
    active key, the account list (`data.accounts || [data.publicKey]` — an
    absent list defaults to the singleton), reset the user-disconnected flag,
    clear the error, clear the account-info cache, and notify `onConnect`. -/
def onConnectEvent (s : BridgeState) (publicKey : String)
    (accounts : Option (List String)) : BridgeState :=
  { s with isConnected := true,
           publicKey := some publicKey,
           accounts := accounts.getD [publicKey],
           userDisconnected := false,
           error := none,
           cache := [],
           onConnectCalls := s.onConnectCalls ++ [publicKey] }

/-- The `disconnect` event handler (lines 125–136): clear connected state,
    active key and account list, clear the account-info cache, and notify
    `onDisconnect`.  It does not touch the user-disconnected flag, the error
    state, or the in-flight registry. -/
def onDisconnectEvent (s : BridgeState) : BridgeState :=
  { s with isConnected := false,
           publicKey := none,
           accounts := [],
           cache := [],
           onDisconnectCalls := s.onDisconnectCalls + 1 }

/-- The `accountChanged` event handler (lines 138–154): set connected state,
    the new key as active, the singleton account list, clear the cache and
    notify `onConnect`.  It does not reset the user-disconnected flag and does
    not clear the error state. -/
def onAccountChangedEvent (s : BridgeState) (newPublicKey : String) : BridgeState :=
  { s with isConnected := true,
           publicKey := some newPublicKey,
           accounts := [newPublicKey],
           cache := [],
           onConnectCalls := s.onConnectCalls ++ [newPublicKey] }

/-- `ACCOUNT_INFO_TTL_MS` (line 67). -/
def ACCOUNT_INFO_TTL_MS : Nat := 5000

/-- The cache-freshness check of line 257 (`cached && Date.now() - cached.ts <
    ACCOUNT_INFO_TTL_MS`): the cached data when an entry exists and is younger
    than the TTL at time `now`, and `none` otherwise.  `Nat` subtraction
    truncates at zero, which agrees with the JavaScript comparison (a negative
    difference also passes the `< TTL` test). -/
def freshAt (now : Nat) : Option CacheEntry → Option AccountInfo
  | some e => if now - e.ts < ACCOUNT_INFO_TTL_MS then some e.data else none
  | none => none

/-- Outcome of the synchronous prefix of `getAccountInfo`. -/
inductive SyncOutcome
  /-- Returned without creating or awaiting a promise (lines 248–259). -/
  | ret (v : Option AccountInfo)
  /-- Found an existing in-flight promise for the address and awaits it
      (lines 262–266). -/
  | awaitFlight (a : String)
  /-- Issued a new `provider.getAccountInfo` call, registered the shared
      promise in the in-flight map, and awaits it (lines 268–278). -/
  | startFetch (a : String)
deriving DecidableEq, Repr

/-- The synchronous prefix of `getAccountInfo` (lines 246–278): everything the
    call executes before its first `await`.  `hasProvider` abstracts the
    provider-handle null check; the target is `address || publicKey || ''`.
    Creating the fetch promise synchronously issues the provider call and
    registers the in-flight entry, so `providerCalls` is incremented and the
    address inserted before control is yielded. -/
def getAccountInfoSync (hasProvider : Bool) (s : BridgeState) (now : Nat)
    (address : Option String) : SyncOutcome × BridgeState :=
  if hasProvider = false then
    (SyncOutcome.ret none,
     handleError s (some "MonkeyMask not installed") "MonkeyMask extension not found")
  else
    let target := jsOr (address.getD "") (s.publicKey.getD "")
    if target = "" then (SyncOutcome.ret none, s)
    else
      match freshAt now (mapFind s.cache target) with
      | some d => (SyncOutcome.ret (some d), s)
      | none =>
        if s.inFlight.contains target then (SyncOutcome.awaitFlight target, s)
        else (SyncOutcome.startFetch target,
              { s with inFlight := target :: s.inFlight,
                       providerCalls := s.providerCalls + 1 })

/-- The continuation attached to the fetch promise (lines 268–275): on
    fulfilment, cache the data under the target with the settlement time and
    drop the in-flight entry; on rejection, just drop the in-flight entry. -/
def settleFetch (s : BridgeState) (a : String) (settleTime : Nat)
    (r : Except String AccountInfo) : BridgeState :=
  match r with
  | Except.ok d =>
    { s with cache := mapSet s.cache a { ts := settleTime, data := d },
             inFlight := s.inFlight.erase a }
  | Except.error _ => { s with inFlight := s.inFlight.erase a }

/-- Resumption of a `getAccountInfo` caller once the promise it awaits settles
    (lines 264, 278 and the catch at 280–283): a fulfilment is returned, a
    rejection is caught, recorded through `handleError` and surfaced as null. -/
def getAccountInfoResume (s : BridgeState) (r : Except String AccountInfo) :
    BridgeState × Option AccountInfo :=
  match r with
  | Except.ok d => (s, some d)
  | Except.error e => (handleError s (some e) "Failed to get account info", none)

/-- The behaviour of the externally-injected provider handle
    (`window.banano`, typed in `src/types/monkeymask.ts`): each method is a
    function from its arguments to a settlement outcome (`Except.error` models
    a rejected promise / thrown error).  `sendTransaction` yields the `hash`
    field of the `TransactionResult`; `signMessage` yields the raw signature
    bytes of a `Uint8Array` (values below 256). -/
structure ProviderBehavior where
  connect : Bool → Except String Unit
  disconnect : Except String Unit
  getAccounts : Except String (List String)
  getAccountInfo : String → Except String AccountInfo
  signMessage : String → String → Except String (List (Fin 256))
  verifySignedMessage : String → String → String → String → Except String Bool
  signBlock : Block → Except String SignBlockResult
  sendTransaction : String → String → String → Except String String
  sendBlock : Block → Except String String
  resolveBNS : String → Except String String
  isConnected : Bool

/-- `connect` wrapper (lines 197–215).  Without the handle it records the
    "not installed" error; otherwise it sets `isConnecting`, clears the error,
    resets the user-disconnected flag, delegates (connection state itself is
    updated by the provider's events, outside this wrapper), records any
    failure, and finally clears `isConnecting`. -/
def connectAction (provider : Option ProviderBehavior) (s : BridgeState) : BridgeState :=
  match provider with
  | none => handleError s (some "MonkeyMask not installed") "MonkeyMask extension not found"
  | some pb =>
    let s1 := { s with isConnecting := true, error := none, userDisconnected := false }
    let s2 := match pb.connect false with
      | Except.ok _ => s1
      | Except.error e => handleError s1 (some e) "Failed to connect to MonkeyMask"
    { s2 with isConnecting := false }

/-- `disconnect` wrapper (lines 217–227).  Without the handle it returns
    silently (line 218: `if (!provider) return;`), recording no error;
    otherwise it sets the user-disconnected flag, delegates, and records any
    failure. -/
def disconnectAction (provider : Option ProviderBehavior) (s : BridgeState) : BridgeState :=
  match provider with
  | none => s
  | some pb =>
    let s1 := { s with userDisconnected := true }
    match pb.disconnect with
    | Except.ok _ => s1
    | Except.error e => handleError s1 (some e) "Failed to disconnect"

/-- `getAccounts` wrapper (lines 230–244). -/
def getAccountsAction (provider : Option ProviderBehavior) (s : BridgeState) :
    BridgeState × List String :=
  match provider with
  | none =>
    (handleError s (some "MonkeyMask not installed") "MonkeyMask extension not found", [])
  | some pb =>
    match pb.getAccounts with
    | Except.ok accts => ({ s with accounts := accts }, accts)
    | Except.error e => (handleError s (some e) "Failed to get accounts", [])

/-- A whole `getAccountInfo` run with no interleaved activity: the synchronous
    prefix, then — when the call suspends on the promise for the target — the
    provider call settles (at `settleTime`, with the outcome given by the
    behaviour), its continuation runs, and the caller resumes. -/
def getAccountInfoRun (provider : Option ProviderBehavior) (s : BridgeState)
    (now settleTime : Nat) (address : Option String) : BridgeState × Option AccountInfo :=
  match provider with
  | none =>
    (handleError s (some "MonkeyMask not installed") "MonkeyMask extension not found", none)
  | some pb =>
    match getAccountInfoSync true s now address with
    | (SyncOutcome.ret v, s1) => (s1, v)
    | (SyncOutcome.awaitFlight a, s1) | (SyncOutcome.startFetch a, s1) =>
      let r := pb.getAccountInfo a
      getAccountInfoResume (settleFetch s1 a settleTime r) r

/-- `getBalance` wrapper (lines 286–308): the same target resolution and cache
    check as `getAccountInfo`, then delegation to `getAccountInfo` itself,
    extracting the `balance` field (`info?.balance ?? null`). -/
def getBalanceRun (provider : Option ProviderBehavior) (s : BridgeState)
    (now settleTime : Nat) (address : Option String) : BridgeState × Option String :=
  match provider with
  | none =>
    (handleError s (some "MonkeyMask not installed") "MonkeyMask extension not found", none)
  | some pb =>
    let target := jsOr (address.getD "") (s.publicKey.getD "")
    if target = "" then (s, none)
    else
      match freshAt now (mapFind s.cache target) with
      | some d => (s, some d.balance)
      | none =>
        let ri := getAccountInfoRun (some pb) s now settleTime (some target)
        (ri.1, match ri.2 with | some i => some i.balance | none => none)

/-- A call made to the provider handle during `sendTransaction`. -/
inductive TraceEv
  | resolveCall (name : String)
  | sendCall (source dest amount : String)
deriving DecidableEq, Repr

/-- `sendTransaction` wrapper (lines 310–345).  Returns the new state, the
    result (the transaction hash, or null) and the calls delegated to the
    handle, in order.  A destination containing `.ban` or `.banano` (line 326)
    is first resolved through `resolveBNS`; a thrown resolution or a falsy
    resolved address records a classified error and aborts before
    delegation. -/
def sendTransactionAction (provider : Option ProviderBehavior) (s : BridgeState)
    (dest amount : String) : BridgeState × Option String × List TraceEv :=
  match provider with
  | none =>
    (handleError s (some "MonkeyMask not installed") "MonkeyMask extension not found",
     none, [])
  | some pb =>
    if optFalsy s.publicKey then
      (handleError s (some "No account selected") "Please connect your wallet first",
       none, [])
    else
      let pk := s.publicKey.getD ""
      if strContains dest ".ban" || strContains dest ".banano" then
        match pb.resolveBNS dest with
        | Except.error e =>
          (handleError s (some e) ("Failed to resolve BNS name: " ++ dest),
           none, [TraceEv.resolveCall dest])
        | Except.ok addr =>
          if addr = "" then
            (handleError s (some ("Failed to resolve BNS name: " ++ dest))
               "BNS resolution failed",
             none, [TraceEv.resolveCall dest])
          else
            match pb.sendTransaction pk addr amount with
            | Except.ok h =>
              (s, some h, [TraceEv.resolveCall dest, TraceEv.sendCall pk addr amount])
            | Except.error e =>
              (handleError s (some e) "Failed to send transaction",
               none, [TraceEv.resolveCall dest, TraceEv.sendCall pk addr amount])
      else
        match pb.sendTransaction pk dest amount with
        | Except.ok h => (s, some h, [TraceEv.sendCall pk dest amount])
        | Except.error e =>
          (handleError s (some e) "Failed to send transaction",
           none, [TraceEv.sendCall pk dest amount])

/-- One hexadecimal digit, lower-case, as JavaScript `Number.toString(16)`
    produces for 0–15. -/
def hexDigitChar (n : Nat) : Char :=
  if n < 10 then Char.ofNat (48 + n) else Char.ofNat (87 + n)

/-- `byte.toString(16).padStart(2, '0')` for a `Uint8Array` element. -/
def byteToHex (b : Fin 256) : String :=
  String.mk [hexDigitChar (b.val / 16), hexDigitChar (b.val % 16)]

/-- The signature-to-hex conversion of line 363. -/
def bytesToHex (bs : List (Fin 256)) : String := String.join (bs.map byteToHex)

/-- `signMessage` wrapper (lines 347–368). -/
def signMessageAction (provider : Option ProviderBehavior) (s : BridgeState)
    (message encoding : String) : BridgeState × Option String :=
  match provider with
  | none =>
    (handleError s (some "MonkeyMask not installed") "MonkeyMask extension not found", none)
  | some pb =>
    if optFalsy s.publicKey then
      (handleError s (some "No account selected") "Please connect your wallet first", none)
    else
      match pb.signMessage message encoding with
      | Except.ok sig => (s, some (bytesToHex sig))
      | Except.error e => (handleError s (some e) "Failed to sign message", none)

/-- `verifySignedMessage` wrapper (lines 370–392): the key to use is
    `publicKeyParam || publicKey`. -/
def verifySignedMessageAction (provider : Option ProviderBehavior) (s : BridgeState)
    (message signatureHex : String) (publicKeyParam : Option String) (encoding : String) :
    BridgeState × Option Bool :=
  match provider with
  | none =>
    (handleError s (some "MonkeyMask not installed") "MonkeyMask extension not found", none)
  | some pb =>
    let keyToUse := jsOr (publicKeyParam.getD "") (s.publicKey.getD "")
    if keyToUse = "" then
      (handleError s (some "No account selected") "Please connect your wallet first", none)
    else
      match pb.verifySignedMessage message signatureHex keyToUse encoding with
      | Except.ok b => (s, some b)
      | Except.error e => (handleError s (some e) "Failed to verify signed message", none)

/-- `signBlock` wrapper (lines 394–413). -/
def signBlockAction (provider : Option ProviderBehavior) (s : BridgeState)
    (block : Block) : BridgeState × Option SignBlockResult :=
  match provider with
  | none =>
    (handleError s (some "MonkeyMask not installed") "MonkeyMask extension not found", none)
  | some pb =>
    if optFalsy s.publicKey then
      (handleError s (some "No account selected") "Please connect your wallet first", none)
    else
      match pb.signBlock block with
      | Except.ok r => (s, some r)
      | Except.error e => (handleError s (some e) "Failed to sign block", none)

/-- `sendBlock` wrapper (lines 415–434). -/
def sendBlockAction (provider : Option ProviderBehavior) (s : BridgeState)
    (block : Block) : BridgeState × Option String :=
  match provider with
  | none =>
    (handleError s (some "MonkeyMask not installed") "MonkeyMask extension not found", none)
  | some pb =>
    if optFalsy s.publicKey then
      (handleError s (some "No account selected") "Please connect your wallet first", none)
    else
      match pb.sendBlock block with
      | Except.ok h => (s, some h)
      | Except.error e => (handleError s (some e) "Failed to send block", none)

/-- `resolveBNS` wrapper (lines 436–449). -/
def resolveBNSAction (provider : Option ProviderBehavior) (s : BridgeState)
    (bnsName : String) : BridgeState × Option String :=
  match provider with
  | none =>
    (handleError s (some "MonkeyMask not installed") "MonkeyMask extension not found", none)
  | some pb =>
    match pb.resolveBNS bnsName with
    | Except.ok addr => (s, some addr)
    | Except.error e =>
      (handleError s (some e) ("Failed to resolve BNS name: " ++ bnsName), none)

/-- The discovery loop `tryInitialize` (lines 164–175): attempt
    `initializeProvider`; while the provider has not been found and fewer than
    `maxRetries = 3` retries have been scheduled, try again 500 ms later.
    `present n` says whether `window.banano` exists at the `n`-th attempt.
    The first component is whether the provider was found — each failed
    attempt sets `isInstalled` to false and a successful one sets it to true,
    so it is also the final `isInstalled` flag; the second component lists the
    times (ms after mount) of every attempt made. -/
def tryInitFrom (present : Nat → Bool) : Nat → Nat → Nat → Bool × List Nat
  | 0, attemptIdx, t => (present attemptIdx, [t])
  | r + 1, attemptIdx, t =>
    if present attemptIdx then (true, [t])
    else
      let rest := tryInitFrom present r (attemptIdx + 1) (t + 500)
      (rest.1, t :: rest.2)

/-- The discovery loop started with `retryCount = 0` at mount time. -/
def tryInit (present : Nat → Bool) : Bool × List Nat := tryInitFrom present 3 0 0

/-- State of the auto-connect effect (lines 182–194): the user-disconnected
    flag, whether the 800 ms timer is currently pending, and how many
    `connect(onlyIfTrusted := true)` calls have been issued. -/
structure AutoState where
  userDisconnected : Bool
  timerPending : Bool
  autoConnectCalls : Nat
deriving DecidableEq, Repr

/-- Events acting on the auto-connect effect. -/
inductive AutoEv
  /-- The user-disconnected flag changes.  The flag is in the effect's
      dependency list, so the previous effect's cleanup (`clearTimeout`)
      cancels any pending timer and the effect re-runs, scheduling a new timer
      only when `autoConnect` is set, the provider is present and the flag is
      clear. -/
  | setFlag (b : Bool)
  /-- The 800 ms timeout elapses while still pending: the callback issues
      `connect(onlyIfTrusted := true)` if the provider reports itself not
      connected. -/
  | timerFire
deriving DecidableEq, Repr

/-- One step of the auto-connect effect machine. -/
def autoStep (autoConnect hasProvider providerConnected : Bool) :
    AutoState → AutoEv → AutoState
  | s, AutoEv.setFlag b =>
    { userDisconnected := b,
      timerPending := autoConnect && hasProvider && !b,
      autoConnectCalls := s.autoConnectCalls }
  | s, AutoEv.timerFire =>
    if s.timerPending then
      { s with timerPending := false,
               autoConnectCalls :=
                 s.autoConnectCalls + (if providerConnected then 0 else 1) }
    else s

/-- The effect's state after the initial mount run: the flag starts false and
    a timer is scheduled exactly when auto-connect is configured and the
    provider was found. -/
def autoInit (autoConnect hasProvider : Bool) : AutoState :=
  { userDisconnected := false,
    timerPending := autoConnect && hasProvider,
    autoConnectCalls := 0 }

/-- The auto-connect machine run over a sequence of events. -/
def autoRun (autoConnect hasProvider providerConnected : Bool)
    (evs : List AutoEv) : AutoState :=
  evs.foldl (autoStep autoConnect hasProvider providerConnected)
    (autoInit autoConnect hasProvider)

/-- The JSON body accepted by `POST /verify-signature`
    (`src/app/api/verify-signature/route.ts`), fields modelled as nullable
    strings. -/
structure VerifyRequestBody where
  message : Option String
  signature : Option String
  publicKey : Option String
  origin : Option String
deriving DecidableEq, Repr

/-- The response produced by the route: HTTP status plus the JSON fields the
    handler can emit. -/
structure VerifyResponse where
  status : Nat
  valid : Bool
  message : Option String
  error : Option String
  verifiedAt : Option String
deriving DecidableEq, Repr

/-- Behaviour of the `bananojs` verification library as used by the route:
    `getAccountPublicKey` converts a `ban_` address to a hex public key and
    `verifyMessage` checks a signature; `Except.error` models a throw. -/
structure BananoJs where
  getAccountPublicKey : String → Except String String
  verifyMessage : String → String → String → Except String Bool

/-- The domain-separated message built at line 32 of the route. -/
def canonicalMessage (origin message : String) : String :=
  "MonkeyMask Signed Message:\nOrigin: " ++ origin ++ "\nMessage: " ++ message

/-- The public-key normalisation of lines 36–49: a key starting with `ban_` is
    converted via the library, a conversion failure being rethrown as
    `Invalid Banano address format`; any other key is used as-is. -/
def hexKeyOf (lib : BananoJs) (publicKey : String) : Except String String :=
  if strStartsWith publicKey "ban_" then
    match lib.getAccountPublicKey publicKey with
    | Except.ok k => Except.ok k
    | Except.error _ => Except.error "Invalid Banano address format"
  else Except.ok publicKey

/-- The inner try of lines 30–54: normalise the key, then call
    `verifyMessage`; an error is whatever was thrown inside the block. -/
def verifyStep (lib : BananoJs) (publicKey messageToVerify signature : String) :
    Except String Bool :=
  match hexKeyOf lib publicKey with
  | Except.ok k => lib.verifyMessage k messageToVerify signature
  | Except.error e => Except.error e

/-- The `POST /verify-signature` handler (route lines 4–81).  `body` is the
    outcome of `request.json()` (an error models unparseable JSON),
    `headerOrigin` the request's Origin header, `nowISO` the timestamp used
    for `verifiedAt`.  Missing parameters yield 400; a throw inside the
    verification block is caught and answered with status 200, `valid: false`
    and an `error` field; only a failure before that block reaches the outer
    catch and yields 500. -/
def postVerifySignature (lib : BananoJs) (body : Except String VerifyRequestBody)
    (headerOrigin : Option String) (nowISO : String) : VerifyResponse :=
  match body with
  | Except.error _ =>
    { status := 500, valid := false, message := none,
      error := some "Internal server error", verifiedAt := none }
  | Except.ok b =>
    if optFalsy b.message || optFalsy b.signature || optFalsy b.publicKey then
      { status := 400, valid := false, message := none,
        error := some "Missing required parameters: message, signature, publicKey",
        verifiedAt := none }
    else
      let verificationOrigin := jsOr (b.origin.getD "") (jsOr (headerOrigin.getD "") "unknown")
      let messageToVerify := canonicalMessage verificationOrigin (b.message.getD "")
      match verifyStep lib (b.publicKey.getD "") messageToVerify (b.signature.getD "") with
      | Except.ok isValid =>
        { status := 200, valid := isValid,
          message := some (if isValid then "Signature verified successfully"
                           else "Signature verification failed"),
          error := none, verifiedAt := some nowISO }
      | Except.error e =>
        { status := 200, valid := false,
          message := some "Signature verification failed",
          error := some e, verifiedAt := none }

/-- A bridge state with nothing cached, nothing in flight and no error. -/
def emptyBridgeState : BridgeState :=
  { isInstalled := true, isConnected := false, isConnecting := false,
    publicKey := none, accounts := [], error := none, userDisconnected := false,
    cache := [], inFlight := [], providerCalls := 0,
    onConnectCalls := [], onDisconnectCalls := 0, onErrorCalls := [] }

/-- A sample account-info snapshot. -/
def sampleInfo : AccountInfo :=
  { address := "ban_1abc", balance := "19", pending := "0",
    rawBalance := "1900000000000000000000000000000", rawPending := "0" }

/-- A second sample account-info snapshot. -/
def sampleInfo2 : AccountInfo :=
  { address := "ban_1abc", balance := "21", pending := "1",
    rawBalance := "2100000000000000000000000000000", rawPending := "1" }

/-- A sample block. -/
def sampleBlock : Block :=
  { type := "state", account := "ban_1abc", previous := "0",
    representative := "ban_1rep", balance := "0", link := "0",
    signature := none, work := none, amount := none }

/-- A provider handle on which every operation succeeds. -/
def okProvider : ProviderBehavior :=
  { connect := fun _ => Except.ok (),
    disconnect := Except.ok (),
    getAccounts := Except.ok ["ban_1abc"],
    getAccountInfo := fun _ => Except.ok sampleInfo,
    signMessage := fun _ _ => Except.ok [],
    verifySignedMessage := fun _ _ _ _ => Except.ok true,
    signBlock := fun _ => Except.ok { signature := "sig", work := none },
    sendTransaction := fun _ _ _ => Except.ok "HASH",
    sendBlock := fun _ => Except.ok "BLOCKHASH",
    resolveBNS := fun _ => Except.ok "ban_1resolved",
    isConnected := false }

/-- A provider handle whose name resolution throws. -/
def failResolverProvider : ProviderBehavior :=
  { okProvider with resolveBNS := fun _ => Except.error "resolver down" }

/-- A verification library whose `verifyMessage` always throws. -/
def throwingLib : BananoJs :=
  { getAccountPublicKey := fun _ => Except.ok "AB12",
    verifyMessage := fun _ _ _ => Except.error "Non-base16 character" }

theorem handleError_error_isSome (s : BridgeState) (m : Option String) (d : String) :
    (handleError s m d).error.isSome = true := by
  simp only [handleError]
  split <;> simp

theorem handleError_error (s : BridgeState) (m : Option String) (d : String) :
    (handleError s m d).error = some (classifyMessage (jsOr (m.getD "") d)) := by
  simp only [handleError]
  split <;> rfl

theorem mapFind_mapSet_self {α : Type} (m : List (String × α)) (k : String) (v : α) :
    mapFind (mapSet m k v) k = some v := by
  induction m with
  | nil => simp [mapSet, mapFind]
  | cons hd tl ih =>
    obtain ⟨k1, v1⟩ := hd
    by_cases hk : k1 = k
    · simp [mapSet, hk, mapFind]
    · simp [mapSet, hk, mapFind, ih]

/-- C1: a second `getAccountInfo(A)` call made while a first one's request is
    still in flight awaits the existing shared promise and leaves the state —
    including the count of issued provider calls — untouched; after the single
    settlement both callers resume with the same value, and on failure both
    surface null. -/
theorem getAccountInfo_single_flight
    (s : BridgeState) (A : String) (now1 now2 st : Nat) (r : Except String AccountInfo)
    (hA : ¬ A = "")
    (h1 : freshAt now1 (mapFind s.cache A) = none)
    (h2 : freshAt now2 (mapFind s.cache A) = none)
    (hnif : s.inFlight.contains A = false) :
    getAccountInfoSync true s now1 (some A)
      = (SyncOutcome.startFetch A,
         { s with inFlight := A :: s.inFlight, providerCalls := s.providerCalls + 1 })
    ∧ getAccountInfoSync true
        { s with inFlight := A :: s.inFlight, providerCalls := s.providerCalls + 1 }
        now2 (some A)
      = (SyncOutcome.awaitFlight A,
         { s with inFlight := A :: s.inFlight, providerCalls := s.providerCalls + 1 })
    ∧ (getAccountInfoResume
         (settleFetch
           { s with inFlight := A :: s.inFlight, providerCalls := s.providerCalls + 1 }
           A st r) r).2
      = (getAccountInfoResume
          ((getAccountInfoResume
            (settleFetch
              { s with inFlight := A :: s.inFlight, providerCalls := s.providerCalls + 1 }
              A st r) r).1) r).2
    ∧ (∀ e, r = Except.error e →
        (getAccountInfoResume
          (settleFetch
            { s with inFlight := A :: s.inFlight, providerCalls := s.providerCalls + 1 }
            A st r) r).2 = none) := by
  have hnm : A ∉ s.inFlight := by simpa using hnif
  refine ⟨?_, ?_, ?_, ?_⟩
  · simp [getAccountInfoSync, jsOr, hA, h1, hnm]
  · simp [getAccountInfoSync, jsOr, hA, h2]
  · cases r <;> simp [getAccountInfoResume]
  · intro e he
    subst he
    simp [getAccountInfoResume, settleFetch]

theorem getAccountInfo_single_flight_witness :
    getAccountInfoSync true emptyBridgeState 0 (some "ban_1abc")
      = (SyncOutcome.startFetch "ban_1abc",
         { emptyBridgeState with inFlight := ["ban_1abc"], providerCalls := 1 })
    ∧ getAccountInfoSync true
        { emptyBridgeState with inFlight := ["ban_1abc"], providerCalls := 1 } 1
        (some "ban_1abc")
      = (SyncOutcome.awaitFlight "ban_1abc",
         { emptyBridgeState with inFlight := ["ban_1abc"], providerCalls := 1 })
    ∧ (getAccountInfoResume
         (settleFetch { emptyBridgeState with inFlight := ["ban_1abc"], providerCalls := 1 }
           "ban_1abc" 2 (Except.ok sampleInfo)) (Except.ok sampleInfo)).2
      = (getAccountInfoResume
          ((getAccountInfoResume
            (settleFetch { emptyBridgeState with inFlight := ["ban_1abc"], providerCalls := 1 }
              "ban_1abc" 2 (Except.ok sampleInfo)) (Except.ok sampleInfo)).1)
          (Except.ok sampleInfo)).2 := by
  have h := getAccountInfo_single_flight emptyBridgeState "ban_1abc" 0 1 2
    (Except.ok sampleInfo) (by decide) rfl rfl rfl
  exact ⟨h.1, h.2.1, h.2.2.1⟩

/-- C2: a cache entry for the target younger than 5000 ms is served as-is with
    no state change and no provider call; an entry 5000 ms old or older (with
    nothing in flight) starts a fetch issuing exactly one new provider call,
    whose successful settlement stores the fresh data under a new
    timestamp. -/
theorem getAccountInfo_cache_ttl
    (s : BridgeState) (A : String) (e : CacheEntry) (now1 now2 st : Nat) (d : AccountInfo)
    (hA : ¬ A = "")
    (hc : mapFind s.cache A = some e)
    (hfresh : now1 - e.ts < 5000)
    (hstale : 5000 ≤ now2 - e.ts)
    (hnif : s.inFlight.contains A = false) :
    getAccountInfoSync true s now1 (some A) = (SyncOutcome.ret (some e.data), s)
    ∧ getAccountInfoSync true s now2 (some A)
      = (SyncOutcome.startFetch A,
         { s with inFlight := A :: s.inFlight, providerCalls := s.providerCalls + 1 })
    ∧ mapFind (settleFetch
          { s with inFlight := A :: s.inFlight, providerCalls := s.providerCalls + 1 }
          A st (Except.ok d)).cache A
      = some { ts := st, data := d } := by
  refine ⟨?_, ?_, ?_⟩
  · simp [getAccountInfoSync, jsOr, hA, hc, freshAt, ACCOUNT_INFO_TTL_MS, hfresh]
  · have hnm : A ∉ s.inFlight := by simpa using hnif
    simp [getAccountInfoSync, jsOr, hA, hc, freshAt, ACCOUNT_INFO_TTL_MS,
      Nat.not_lt.mpr hstale, hnm]
  · simp [settleFetch, mapFind_mapSet_self]

theorem getAccountInfo_cache_ttl_witness :
    getAccountInfoSync true
        { emptyBridgeState with cache := [("ban_1abc", { ts := 100, data := sampleInfo })] }
        4000 (some "ban_1abc")
      = (SyncOutcome.ret (some sampleInfo),
         { emptyBridgeState with cache := [("ban_1abc", { ts := 100, data := sampleInfo })] })
    ∧ getAccountInfoSync true
        { emptyBridgeState with cache := [("ban_1abc", { ts := 100, data := sampleInfo })] }
        5100 (some "ban_1abc")
      = (SyncOutcome.startFetch "ban_1abc",
         { emptyBridgeState with
             cache := [("ban_1abc", { ts := 100, data := sampleInfo })],
             inFlight := ["ban_1abc"], providerCalls := 1 })
    ∧ mapFind (settleFetch
          { emptyBridgeState with
              cache := [("ban_1abc", { ts := 100, data := sampleInfo })],
              inFlight := ["ban_1abc"], providerCalls := 1 }
          "ban_1abc" 5200 (Except.ok sampleInfo2)).cache "ban_1abc"
      = some { ts := 5200, data := sampleInfo2 } :=
  getAccountInfo_cache_ttl
    { emptyBridgeState with cache := [("ban_1abc", { ts := 100, data := sampleInfo })] }
    "ban_1abc" { ts := 100, data := sampleInfo } 4000 5100 5200 sampleInfo2
    (by decide) rfl (by decide) (by decide) rfl

/-- The state of C3's scenario: connected to `ban_1abc` with a
    `getAccountInfo` request for it in flight. -/
def inFlightState : BridgeState :=
  { emptyBridgeState with
    isConnected := true, publicKey := some "ban_1abc",
    inFlight := ["ban_1abc"], providerCalls := 1 }

/-- C3 counterexample: at a concrete state with a request for the active
    account in flight, the `disconnect` event does clear the cache, but the
    in-flight call's later successful settlement repopulates a cache entry for
    the now-inactive address with a fresh timestamp — an entry a subsequent
    explicit request within the TTL is served from as current — contradicting
    the claim that the resolution does not repopulate such an entry. -/
theorem disconnect_inflight_repopulates_cex :
    (onDisconnectEvent inFlightState).cache = []
    ∧ (settleFetch (onDisconnectEvent inFlightState) "ban_1abc" 6000
        (Except.ok sampleInfo2)).publicKey = none
    ∧ mapFind (settleFetch (onDisconnectEvent inFlightState) "ban_1abc" 6000
        (Except.ok sampleInfo2)).cache "ban_1abc"
      = some { ts := 6000, data := sampleInfo2 }
    ∧ freshAt 8000 (mapFind (settleFetch (onDisconnectEvent inFlightState) "ban_1abc" 6000
        (Except.ok sampleInfo2)).cache "ban_1abc")
      = some sampleInfo2 := ⟨rfl, rfl, rfl, rfl⟩

/-- C3 amended: the `disconnect` event handler clears the cache for all
    addresses (and the active account), but the in-flight call's eventual
    successful resolution does repopulate the cache entry for its — now
    inactive — target address with a fresh timestamp; the entry is only
    unreachable through parameterless calls because the active account has
    been cleared. -/
theorem disconnect_clears_cache_settle_repopulates
    (s : BridgeState) (A : String) (st : Nat) (d : AccountInfo) :
    (onDisconnectEvent s).cache = []
    ∧ (onDisconnectEvent s).publicKey = none
    ∧ mapFind (settleFetch (onDisconnectEvent s) A st (Except.ok d)).cache A
      = some { ts := st, data := d }
    ∧ freshAt st (mapFind (settleFetch (onDisconnectEvent s) A st (Except.ok d)).cache A)
      = some d := by
  refine ⟨rfl, rfl, ?_, ?_⟩
  · simp [onDisconnectEvent, settleFetch, mapSet, mapFind]
  · simp [onDisconnectEvent, settleFetch, mapSet, mapFind, freshAt, ACCOUNT_INFO_TTL_MS]

/-- The state of C4's counterexample: an error is recorded and the user has
    explicitly disconnected. -/
def flaggedErrState : BridgeState :=
  { emptyBridgeState with userDisconnected := true, error := some "previous failure" }

/-- C4 counterexample: at a concrete state with the user-disconnected flag set
    and an error recorded, `accountChanged(K)` leaves both untouched while the
    `connect` event with `publicKey = K, accounts = [K]` resets the flag and
    clears the error — so the two transitions are not identical. -/
theorem accountChanged_differs_from_connect_cex :
    (onAccountChangedEvent flaggedErrState "K").userDisconnected = true
    ∧ (onConnectEvent flaggedErrState "K" (some ["K"])).userDisconnected = false
    ∧ (onAccountChangedEvent flaggedErrState "K").error = some "previous failure"
    ∧ (onConnectEvent flaggedErrState "K" (some ["K"])).error = none :=
  ⟨rfl, rfl, rfl, rfl⟩

/-- C4 amended: handling `accountChanged(K)` produces exactly the state
    transition and callback effects of handling a `connect` event with
    publicKey `K` and account list `[K]`, except that it does not reset the
    user-disconnected flag and does not clear the error state. -/
theorem accountChanged_matches_connect_otherwise (s : BridgeState) (k : String) :
    onAccountChangedEvent s k
      = { onConnectEvent s k (some [k]) with
          userDisconnected := s.userDisconnected, error := s.error } := rfl

/-- C5 counterexample: the `disconnect` wrapper invoked while the provider
    handle is absent returns silently with the state unchanged: no error is
    recorded and the external onError callback is not invoked, contradicting
    the claim that every wrapper — including disconnect — records a classified
    error in that situation. -/
theorem disconnect_absent_provider_silent_cex :
    disconnectAction none emptyBridgeState = emptyBridgeState
    ∧ (disconnectAction none emptyBridgeState).error = none
    ∧ (disconnectAction none emptyBridgeState).onErrorCalls = [] := ⟨rfl, rfl, rfl⟩

/-- C5 amended: every action wrapper other than `disconnect`, invoked while
    the provider handle is absent, records the classified "MonkeyMask not
    installed" error and returns a null or empty result without throwing;
    `disconnect` alone returns silently, leaving the state unchanged and
    recording no error. -/
theorem wrappers_without_provider
    (s : BridgeState) (dest amount msg enc sigHex name : String)
    (pkParam addr : Option String) (blk : Block) (now st : Nat) :
    (connectAction none s).error = some "MonkeyMask not installed"
    ∧ disconnectAction none s = s
    ∧ (getAccountsAction none s).1.error = some "MonkeyMask not installed"
    ∧ (getAccountsAction none s).2 = []
    ∧ (getAccountInfoRun none s now st addr).1.error = some "MonkeyMask not installed"
    ∧ (getAccountInfoRun none s now st addr).2 = none
    ∧ (getBalanceRun none s now st addr).1.error = some "MonkeyMask not installed"
    ∧ (getBalanceRun none s now st addr).2 = none
    ∧ (sendTransactionAction none s dest amount).1.error = some "MonkeyMask not installed"
    ∧ (sendTransactionAction none s dest amount).2.1 = none
    ∧ (sendTransactionAction none s dest amount).2.2 = []
    ∧ (signMessageAction none s msg enc).1.error = some "MonkeyMask not installed"
    ∧ (signMessageAction none s msg enc).2 = none
    ∧ (verifySignedMessageAction none s msg sigHex pkParam enc).1.error
        = some "MonkeyMask not installed"
    ∧ (verifySignedMessageAction none s msg sigHex pkParam enc).2 = none
    ∧ (signBlockAction none s blk).1.error = some "MonkeyMask not installed"
    ∧ (signBlockAction none s blk).2 = none
    ∧ (sendBlockAction none s blk).1.error = some "MonkeyMask not installed"
    ∧ (sendBlockAction none s blk).2 = none
    ∧ (resolveBNSAction none s name).1.error = some "MonkeyMask not installed"
    ∧ (resolveBNSAction none s name).2 = none :=
  ⟨rfl, rfl, rfl, rfl, rfl, rfl, rfl, rfl, rfl, rfl, rfl, rfl, rfl, rfl, rfl, rfl,
   rfl, rfl, rfl, rfl, rfl⟩

/-- C6: when the global provider handle never appears, the discovery loop
    makes its initial attempt and exactly 3 retries, spaced 500 ms apart (at
    0, 500, 1000 and 1500 ms after mount), ends with `isInstalled` false, and
    performs no further polling — the attempt list is exhaustive. -/
theorem discovery_bounded_when_absent (present : Nat → Bool)
    (h : ∀ n, present n = false) :
    tryInit present = (false, [0, 500, 1000, 1500]) := by
  simp [tryInit, tryInitFrom, h]

theorem discovery_bounded_when_absent_witness :
    tryInit (fun _ => false) = (false, [0, 500, 1000, 1500]) :=
  discovery_bounded_when_absent (fun _ => false) (fun _ => rfl)

theorem autoFold_flag_clears_timer (a hp pc : Bool) (evs : List AutoEv) :
    ∀ s : AutoState, (s.userDisconnected = true → s.timerPending = false) →
      ((evs.foldl (autoStep a hp pc) s).userDisconnected = true →
        (evs.foldl (autoStep a hp pc) s).timerPending = false) := by
  induction evs with
  | nil => intro s hs; simpa using hs
  | cons ev rest ih =>
    intro s hs
    simp only [List.foldl_cons]
    apply ih
    cases ev with
    | setFlag b => cases b <;> simp [autoStep]
    | timerFire =>
      intro hf
      by_cases ht : s.timerPending = true
      · simp [autoStep, ht]
      · simp [autoStep, ht]

theorem autoRun_flag_clears_timer (a hp pc : Bool) (evs : List AutoEv) :
    (autoRun a hp pc evs).userDisconnected = true →
    (autoRun a hp pc evs).timerPending = false := by
  have h0 : (autoInit a hp).userDisconnected = true →
      (autoInit a hp).timerPending = false := by
    intro hf
    simp [autoInit] at hf
  exact autoFold_flag_clears_timer a hp pc evs (autoInit a hp) h0

/-- C7: in every state the auto-connect effect machine can reach, if the
    user-disconnected flag is set then no 800 ms timer is pending — the
    effect's cleanup cancelled it when the flag was raised — so the firing of
    the delayed automatic `connect(onlyIfTrusted := true)` request is a no-op:
    no call is ever issued while the flag is set. -/
theorem auto_connect_suppressed_after_user_disconnect
    (a hp pc : Bool) (evs : List AutoEv)
    (hflag : (autoRun a hp pc evs).userDisconnected = true) :
    autoStep a hp pc (autoRun a hp pc evs) AutoEv.timerFire = autoRun a hp pc evs := by
  have ht := autoRun_flag_clears_timer a hp pc evs hflag
  simp [autoStep, ht]

theorem auto_connect_suppressed_after_user_disconnect_witness :
    autoStep true true false (autoRun true true false [AutoEv.setFlag true])
        AutoEv.timerFire
      = autoRun true true false [AutoEv.setFlag true] :=
  auto_connect_suppressed_after_user_disconnect true true false
    [AutoEv.setFlag true] rfl

/-- C8: for a destination containing a reserved name-suffix marker (`.ban` or
    `.banano`), `sendTransaction` always calls the provider's `resolveBNS`
    first; when resolution throws, or yields no address (the falsy empty
    string), the transfer is never delegated — the call trace is exactly the
    resolution call — a classified error is recorded, and null is returned. -/
theorem sendTransaction_bns_short_circuit
    (pb : ProviderBehavior) (s : BridgeState) (dest amount pk : String)
    (hp : s.publicKey = some pk) (hpk : ¬ pk = "")
    (hm : (strContains dest ".ban" || strContains dest ".banano") = true) :
    (sendTransactionAction (some pb) s dest amount).2.2.head?
      = some (TraceEv.resolveCall dest)
    ∧ (∀ er, pb.resolveBNS dest = Except.error er →
        sendTransactionAction (some pb) s dest amount
          = (handleError s (some er) ("Failed to resolve BNS name: " ++ dest),
             none, [TraceEv.resolveCall dest]))
    ∧ (pb.resolveBNS dest = Except.ok "" →
        sendTransactionAction (some pb) s dest amount
          = (handleError s (some ("Failed to resolve BNS name: " ++ dest))
               "BNS resolution failed",
             none, [TraceEv.resolveCall dest]))
    ∧ (∀ er, pb.resolveBNS dest = Except.error er →
        ((sendTransactionAction (some pb) s dest amount).1.error).isSome = true)
    ∧ (pb.resolveBNS dest = Except.ok "" →
        ((sendTransactionAction (some pb) s dest amount).1.error).isSome = true) := by
  have hfal : optFalsy s.publicKey = false := by simp [hp, optFalsy, hpk]
  refine ⟨?_, ?_, ?_, ?_, ?_⟩
  · cases hr : pb.resolveBNS dest with
    | ok a =>
      by_cases ha : a = ""
      · simp [sendTransactionAction, hfal, hm, hr, ha]
      · cases hst : pb.sendTransaction (s.publicKey.getD "") a amount <;>
          simp [sendTransactionAction, hfal, hm, hr, ha, hst]
    | error e => simp [sendTransactionAction, hfal, hm, hr]
  · intro er hr
    simp [sendTransactionAction, hfal, hm, hr]
  · intro hr
    simp [sendTransactionAction, hfal, hm, hr]
  · intro er hr
    simp [sendTransactionAction, hfal, hm, hr, handleError_error_isSome]
  · intro hr
    simp [sendTransactionAction, hfal, hm, hr, handleError_error_isSome]

theorem sendTransaction_bns_short_circuit_witness :
    sendTransactionAction (some failResolverProvider)
        { emptyBridgeState with publicKey := some "ban_1abc" } "nook.ban" "1"
      = (handleError { emptyBridgeState with publicKey := some "ban_1abc" }
           (some "resolver down") ("Failed to resolve BNS name: " ++ "nook.ban"),
         none, [TraceEv.resolveCall "nook.ban"]) :=
  (sendTransaction_bns_short_circuit failResolverProvider
    { emptyBridgeState with publicKey := some "ban_1abc" } "nook.ban" "1" "ban_1abc"
    rfl (by decide) (by decide)).2.1 "resolver down" rfl

/-- The state of C9's counterexample: an error already recorded and an active
    account present. -/
def staleErrState : BridgeState :=
  { emptyBridgeState with
    error := some "previous failure",
    publicKey := some "ban_1self" }

/-- C9 counterexample: at a concrete state carrying an earlier error, a
    successful `sendTransaction` completes — delegating to the provider and
    returning the hash — with the old error message still recorded afterwards:
    the wrapper never reset the error state at its start, contradicting the
    claim that every action wrapper does. -/
theorem error_not_reset_at_action_start_cex :
    (sendTransactionAction (some okProvider) staleErrState "ban_1dest" "1").2.1
      = some "HASH"
    ∧ (sendTransactionAction (some okProvider) staleErrState "ban_1dest" "1").1.error
      = some "previous failure" := by
  exact ⟨rfl, rfl⟩

/-- C9 amended: only the `connect` wrapper clears the error state at the start
    of the action; every other action wrapper — disconnect, getAccounts,
    getAccountInfo, getBalance, sendTransaction (with and without a name
    suffix in the destination), signMessage, verifySignedMessage, signBlock,
    sendBlock and resolveBNS — leaves a previously recorded error in place on
    its successful path, replacing it only when the action itself fails (with
    the classified message of the new failure). -/
theorem error_cleared_only_by_connect
    (s : BridgeState) (pb : ProviderBehavior)
    (pk A dest destB amount msg enc sigHex bname : String) (blk : Block) (now st : Nat)
    (hp : s.publicKey = some pk) (hpk : ¬ pk = "")
    (hA : ¬ A = "")
    (hfa : freshAt now (mapFind s.cache A) = none)
    (hnif : s.inFlight.contains A = false)
    (hnb : (strContains dest ".ban" || strContains dest ".banano") = false)
    (hmB : (strContains destB ".ban" || strContains destB ".banano") = true) :
    (pb.connect false = Except.ok () → (connectAction (some pb) s).error = none)
    ∧ (∀ e, pb.connect false = Except.error e →
        (connectAction (some pb) s).error
          = some (classifyMessage (jsOr e "Failed to connect to MonkeyMask")))
    ∧ (pb.disconnect = Except.ok () → (disconnectAction (some pb) s).error = s.error)
    ∧ (∀ e, pb.disconnect = Except.error e →
        (disconnectAction (some pb) s).error
          = some (classifyMessage (jsOr e "Failed to disconnect")))
    ∧ (∀ l, pb.getAccounts = Except.ok l →
        (getAccountsAction (some pb) s).1.error = s.error)
    ∧ (∀ e, pb.getAccounts = Except.error e →
        (getAccountsAction (some pb) s).1.error
          = some (classifyMessage (jsOr e "Failed to get accounts")))
    ∧ (∀ d, pb.getAccountInfo A = Except.ok d →
        (getAccountInfoRun (some pb) s now st (some A)).1.error = s.error)
    ∧ (∀ e, pb.getAccountInfo A = Except.error e →
        (getAccountInfoRun (some pb) s now st (some A)).1.error
          = some (classifyMessage (jsOr e "Failed to get account info")))
    ∧ (∀ d, pb.getAccountInfo A = Except.ok d →
        (getBalanceRun (some pb) s now st (some A)).1.error = s.error)
    ∧ (∀ e, pb.getAccountInfo A = Except.error e →
        (getBalanceRun (some pb) s now st (some A)).1.error
          = some (classifyMessage (jsOr e "Failed to get account info")))
    ∧ (∀ hsh, pb.sendTransaction pk dest amount = Except.ok hsh →
        (sendTransactionAction (some pb) s dest amount).1.error = s.error)
    ∧ (∀ e, pb.sendTransaction pk dest amount = Except.error e →
        (sendTransactionAction (some pb) s dest amount).1.error
          = some (classifyMessage (jsOr e "Failed to send transaction")))
    ∧ (∀ a2 hsh, pb.resolveBNS destB = Except.ok a2 → ¬ a2 = "" →
        pb.sendTransaction pk a2 amount = Except.ok hsh →
        (sendTransactionAction (some pb) s destB amount).1.error = s.error)
    ∧ (∀ bs, pb.signMessage msg enc = Except.ok bs →
        (signMessageAction (some pb) s msg enc).1.error = s.error)
    ∧ (∀ e, pb.signMessage msg enc = Except.error e →
        (signMessageAction (some pb) s msg enc).1.error
          = some (classifyMessage (jsOr e "Failed to sign message")))
    ∧ (∀ b2, pb.verifySignedMessage msg sigHex pk enc = Except.ok b2 →
        (verifySignedMessageAction (some pb) s msg sigHex none enc).1.error = s.error)
    ∧ (∀ e, pb.verifySignedMessage msg sigHex pk enc = Except.error e →
        (verifySignedMessageAction (some pb) s msg sigHex none enc).1.error
          = some (classifyMessage (jsOr e "Failed to verify signed message")))
    ∧ (∀ r2, pb.signBlock blk = Except.ok r2 →
        (signBlockAction (some pb) s blk).1.error = s.error)
    ∧ (∀ e, pb.signBlock blk = Except.error e →
        (signBlockAction (some pb) s blk).1.error
          = some (classifyMessage (jsOr e "Failed to sign block")))
    ∧ (∀ h2, pb.sendBlock blk = Except.ok h2 →
        (sendBlockAction (some pb) s blk).1.error = s.error)
    ∧ (∀ e, pb.sendBlock blk = Except.error e →
        (sendBlockAction (some pb) s blk).1.error
          = some (classifyMessage (jsOr e "Failed to send block")))
    ∧ (∀ a2, pb.resolveBNS bname = Except.ok a2 →
        (resolveBNSAction (some pb) s bname).1.error = s.error)
    ∧ (∀ e, pb.resolveBNS bname = Except.error e →
        (resolveBNSAction (some pb) s bname).1.error
          = some (classifyMessage (jsOr e ("Failed to resolve BNS name: " ++ bname)))) := by
  have hnm : A ∉ s.inFlight := by simpa using hnif
  have hfal : optFalsy s.publicKey = false := by simp [hp, optFalsy, hpk]
  refine ⟨?_, ?_, ?_, ?_, ?_, ?_, ?_, ?_, ?_, ?_, ?_, ?_, ?_, ?_, ?_, ?_, ?_, ?_, ?_,
    ?_, ?_, ?_, ?_⟩
  · intro hc
    simp [connectAction, hc]
  · intro e he
    simp [connectAction, he, handleError_error]
  · intro hd
    simp [disconnectAction, hd]
  · intro e he
    simp [disconnectAction, he, handleError_error]
  · intro l hl
    simp [getAccountsAction, hl]
  · intro e he
    simp [getAccountsAction, he, handleError_error]
  · intro d hd
    simp [getAccountInfoRun, getAccountInfoSync, jsOr, hA, hfa, hnm, hd, settleFetch,
      getAccountInfoResume]
  · intro e he
    simp [getAccountInfoRun, getAccountInfoSync, jsOr, hA, hfa, hnm, he, settleFetch,
      getAccountInfoResume, handleError_error]
  · intro d hd
    simp [getBalanceRun, getAccountInfoRun, getAccountInfoSync, jsOr, hA, hfa, hnm, hd,
      settleFetch, getAccountInfoResume]
  · intro e he
    simp [getBalanceRun, getAccountInfoRun, getAccountInfoSync, jsOr, hA, hfa, hnm, he,
      settleFetch, getAccountInfoResume, handleError_error]
  · intro hsh hst
    simp [sendTransactionAction, hp, optFalsy, hpk, hnb, hst]
  · intro e he
    simp [sendTransactionAction, hp, optFalsy, hpk, hnb, he, handleError_error]
  · intro a2 hsh hr ha2 hsB
    simp [sendTransactionAction, hp, optFalsy, hpk, hmB, hr, ha2, hsB]
  · intro bs hbs
    simp [signMessageAction, hfal, hbs]
  · intro e he
    simp [signMessageAction, hfal, he, handleError_error]
  · intro b2 hb
    simp [verifySignedMessageAction, hp, jsOr, hpk, hb]
  · intro e he
    simp [verifySignedMessageAction, hp, jsOr, hpk, he, handleError_error]
  · intro r2 hr
    simp [signBlockAction, hfal, hr]
  · intro e he
    simp [signBlockAction, hfal, he, handleError_error]
  · intro h2 hh
    simp [sendBlockAction, hfal, hh]
  · intro e he
    simp [sendBlockAction, hfal, he, handleError_error]
  · intro a2 ha
    simp [resolveBNSAction, ha]
  · intro e he
    simp [resolveBNSAction, he, handleError_error]

theorem error_cleared_only_by_connect_witness :
    (connectAction (some okProvider) staleErrState).error = none
    ∧ (disconnectAction (some okProvider) staleErrState).error = some "previous failure"
    ∧ (getAccountsAction (some okProvider) staleErrState).1.error
      = some "previous failure"
    ∧ (getAccountInfoRun (some okProvider) staleErrState 0 1 (some "ban_1abc")).1.error
      = some "previous failure"
    ∧ (getBalanceRun (some okProvider) staleErrState 0 1 (some "ban_1abc")).1.error
      = some "previous failure"
    ∧ (sendTransactionAction (some okProvider) staleErrState "ban_1dest" "1").1.error
      = some "previous failure"
    ∧ (sendTransactionAction (some okProvider) staleErrState "nook.ban" "1").1.error
      = some "previous failure"
    ∧ (signMessageAction (some okProvider) staleErrState "m" "utf8").1.error
      = some "previous failure"
    ∧ (verifySignedMessageAction (some okProvider) staleErrState "m" "00" none
        "utf8").1.error = some "previous failure"
    ∧ (signBlockAction (some okProvider) staleErrState sampleBlock).1.error
      = some "previous failure"
    ∧ (sendBlockAction (some okProvider) staleErrState sampleBlock).1.error
      = some "previous failure"
    ∧ (resolveBNSAction (some okProvider) staleErrState "x.ban").1.error
      = some "previous failure"
    ∧ (resolveBNSAction (some failResolverProvider) staleErrState "x.ban").1.error
      = some "resolver down" := by
  obtain ⟨c1, c2, c3, c4, c5, c6, c7, c8, c9, c10, c11, c12, c13, c14, c15, c16, c17,
    c18, c19, c20, c21, c22, c23⟩ :=
    error_cleared_only_by_connect staleErrState okProvider "ban_1self" "ban_1abc"
      "ban_1dest" "nook.ban" "1" "m" "utf8" "00" "x.ban" sampleBlock 0 1
      rfl (by decide) (by decide) rfl rfl (by decide) (by decide)
  obtain ⟨d1, d2, d3, d4, d5, d6, d7, d8, d9, d10, d11, d12, d13, d14, d15, d16, d17,
    d18, d19, d20, d21, d22, d23⟩ :=
    error_cleared_only_by_connect staleErrState failResolverProvider "ban_1self"
      "ban_1abc" "ban_1dest" "nook.ban" "1" "m" "utf8" "00" "x.ban" sampleBlock 0 1
      rfl (by decide) (by decide) rfl rfl (by decide) (by decide)
  exact ⟨c1 rfl, c3 rfl, c5 ["ban_1abc"] rfl, c7 sampleInfo rfl, c9 sampleInfo rfl,
    c11 "HASH" rfl, c13 "ban_1resolved" "HASH" rfl (by decide) rfl, c14 [] rfl,
    c16 true rfl, c18 { signature := "sig", work := none } rfl, c20 "BLOCKHASH" rfl,
    c22 "ban_1resolved" rfl, d23 "resolver down" rfl⟩

/-- C10: when the POST /verify-signature handler parses the body and all
    required parameters are present, the response status is 200 regardless of
    the verification library's behaviour; in particular a throw at the
    verification step is answered with `valid: false` and an `error` field,
    never a 4xx or 5xx status.  Only a failure before that step — unparseable
    JSON — produces status 500. -/
theorem verify_signature_throw_yields_200
    (lib : BananoJs) (b : VerifyRequestBody) (ho : Option String) (nowISO : String)
    (hm : optFalsy b.message = false) (hs : optFalsy b.signature = false)
    (hk : optFalsy b.publicKey = false) :
    (postVerifySignature lib (Except.ok b) ho nowISO).status = 200
    ∧ (∀ e, verifyStep lib (b.publicKey.getD "")
          (canonicalMessage (jsOr (b.origin.getD "") (jsOr (ho.getD "") "unknown"))
            (b.message.getD "")) (b.signature.getD "") = Except.error e →
        (postVerifySignature lib (Except.ok b) ho nowISO).valid = false
        ∧ (postVerifySignature lib (Except.ok b) ho nowISO).error = some e)
    ∧ (∀ perr, (postVerifySignature lib (Except.error perr) ho nowISO).status = 500) := by
  refine ⟨?_, ?_, ?_⟩
  · cases hv : verifyStep lib (b.publicKey.getD "")
        (canonicalMessage (jsOr (b.origin.getD "") (jsOr (ho.getD "") "unknown"))
          (b.message.getD "")) (b.signature.getD "") <;>
      simp [postVerifySignature, hm, hs, hk, hv]
  · intro e hv
    simp [postVerifySignature, hm, hs, hk, hv]
  · intro perr
    simp [postVerifySignature]

theorem verify_signature_throw_yields_200_witness :
    (postVerifySignature throwingLib
        (Except.ok { message := some "hello", signature := some "00ff",
                     publicKey := some "CAFE", origin := none })
        (some "https://example.org") "2026-01-01T00:00:00Z").status = 200
    ∧ (postVerifySignature throwingLib
        (Except.ok { message := some "hello", signature := some "00ff",
                     publicKey := some "CAFE", origin := none })
        (some "https://example.org") "2026-01-01T00:00:00Z").valid = false
    ∧ (postVerifySignature throwingLib
        (Except.ok { message := some "hello", signature := some "00ff",
                     publicKey := some "CAFE", origin := none })
        (some "https://example.org") "2026-01-01T00:00:00Z").error
      = some "Non-base16 character"
    ∧ (postVerifySignature throwingLib (Except.error "bad json")
        (some "https://example.org") "2026-01-01T00:00:00Z").status = 500 := by
  have h := verify_signature_throw_yields_200 throwingLib
    { message := some "hello", signature := some "00ff",
      publicKey := some "CAFE", origin := none }
    (some "https://example.org") "2026-01-01T00:00:00Z" rfl rfl rfl
  exact ⟨h.1, (h.2.1 "Non-base16 character" rfl).1, (h.2.1 "Non-base16 character" rfl).2,
    h.2.2 "bad json"⟩

end MonkeyMask

